import Mathlib

/-!
Shallow embedding of the Kina webapp's watch-request orchestration core
(auth gate, API client, host-identity resolver, watch-flow reducer and the
page handlers driving them), translated from the TypeScript sources:

* `src/webapp/src/api/authGate.ts`   — auth gate (single-slot waitable)
* `src/webapp/src/api/client.ts`     — API client (bearer-token variant)
* `src/unnamed/part_005`             — host-identity resolver (multi-source)
* `src/unnamed/part_004` (watchFlow) — watch-flow reducer
* `src/webapp/src/pages/TitlePage.tsx`, `src/webapp/src/pages/AdPage.tsx`

JavaScript `string | null` values are `Option String`, numbers are `Int`
(`Option Int` when nullable), and JS truthiness tests (`if (x)`) are the
explicit `truthy*` predicates below (empty string, `null` and `0` are
falsy).  Asynchronous code is embedded by splitting each `async` function
at its suspension points into pure phases over an explicit state, with the
network and host environment supplied as oracle parameters.
-/

/-- JS truthiness of a `string | null` value: `null` and `""` are falsy. -/
def truthyStr : Option String → Bool
  | some s => !s.isEmpty
  | none => false

/-- JS truthiness of a `number | null` value: `null` and `0` are falsy. -/
def truthyInt : Option Int → Bool
  | some n => n != 0
  | none => false

namespace AuthGate

/-- `AuthStatus` from `authGate.ts`. -/
inductive AuthStatus
  | pending
  | ready
  | missing
  | failed
deriving DecidableEq, Repr

/-- The module-level state of `authGate.ts`: the `authStatus` variable and
the current `deferred` slot, of which only resolvedness is observable. -/
structure GateState where
  authStatus : AuthStatus
  deferredResolved : Bool
deriving DecidableEq, Repr

/-- `resetAuthGate`: status back to `pending`, fresh (unresolved) deferred. -/
def resetAuthGate (_s : GateState) : GateState :=
  { authStatus := .pending, deferredResolved := false }

/-- `markAuthReady`: status `ready`, resolve the deferred. -/
def markAuthReady (_s : GateState) : GateState :=
  { authStatus := .ready, deferredResolved := true }

/-- `markAuthMissing`: status `missing`, resolve the deferred. -/
def markAuthMissing (_s : GateState) : GateState :=
  { authStatus := .missing, deferredResolved := true }

/-- `markAuthFailed`: status `failed`, resolve the deferred. -/
def markAuthFailed (_s : GateState) : GateState :=
  { authStatus := .failed, deferredResolved := true }

/-- Outcome of one `waitForAuthReady()` call: normal return or a thrown
`Error(msg)`. -/
inductive WaitOutcome
  | ok
  | thrown (msg : String)
deriving DecidableEq, Repr

/-- The synchronous prefix of `waitForAuthReady()` (the three status checks
before `await deferred.promise`): `some o` means the call finishes
immediately with outcome `o`; `none` means it suspends on the current
deferred. -/
def waitForAuthReadySync (s : GateState) : Option WaitOutcome :=
  match s.authStatus with
  | .ready => some .ok
  | .missing => some (.thrown "auth_missing")
  | .failed => some (.thrown "auth_failed")
  | .pending => none

/-- The continuation of `waitForAuthReady()` after `await deferred.promise`
resolves, evaluated against the gate state at resumption time. -/
def waitForAuthReadyResume (s : GateState) : WaitOutcome :=
  if s.authStatus = .ready then .ok
  else if s.authStatus = .missing then .thrown "auth_missing"
  else .thrown "auth_failed"

/-- A full waiter: started against `start`, and — if it suspended — resumed
against the state `resume` in force when the deferred resolved. -/
def waiterOutcome (start resume : GateState) : WaitOutcome :=
  match waitForAuthReadySync start with
  | some o => o
  | none => waitForAuthReadyResume resume

/-- One terminal mark applied to a pending attempt. -/
inductive Mark
  | ready
  | missing
  | failed
deriving DecidableEq, Repr

/-- The state mutation performed by the corresponding `markAuth*` call. -/
def applyMark : Mark → GateState → GateState
  | .ready => markAuthReady
  | .missing => markAuthMissing
  | .failed => markAuthFailed

/-- The outcome the spec expects every waiter to observe for a mark. -/
def markOutcome : Mark → WaitOutcome
  | .ready => .ok
  | .missing => .thrown "auth_missing"
  | .failed => .thrown "auth_failed"

/-- Executes the scenario of claim C1 on the embedded gate: `resetAuthGate`,
then `k` calls to `waitForAuthReady()` issued while the attempt is still
pending (all suspend on the fresh deferred), then exactly one terminal mark,
which resolves the deferred and lets every suspended waiter resume against
the post-mark state.  Returns the list of the `k` waiters' outcomes. -/
def gateRun (m : Mark) (k : Nat) : List WaitOutcome :=
  let s0 := resetAuthGate { authStatus := .pending, deferredResolved := false }
  let s1 := applyMark m s0
  List.replicate k (waiterOutcome s0 s1)

end AuthGate

namespace Client

/-- The fields of the error payload a response's `json()` can carry that the
client inspects (`detail` in the 401/403 branch, `error` in the generic
error branch, `retry_after` in the ad-cooldown handler). -/
structure ErrorPayload where
  detail : Option String := none
  error : Option String := none
  retry_after : Option Int := none
deriving DecidableEq, Repr

/-- The mutable state `client.ts` reads and writes: the module-level
`authToken` cache, the `localStorage` entries `kina_auth_token` and
`devUserId`, the identity singleton behind `getCurrentInitData()`, and the
auth-gate status (from `authGate.ts`). -/
structure ClientState where
  authToken : Option String
  storedToken : Option String
  devUserId : Option String
  currentInitData : String
  authStatus : AuthGate.AuthStatus
deriving DecidableEq, Repr

/-- `getAuthToken`: return the cached token if truthy, otherwise read
`localStorage`, cache the read value and return it. -/
def getAuthToken (st : ClientState) : Option String × ClientState :=
  if truthyStr st.authToken then (st.authToken, st)
  else
    let stored := st.storedToken
    (stored, { st with authToken := stored })

/-- `setAuthToken`: overwrite the cache; store the token durably when it is
truthy, remove the durable entry otherwise. -/
def setAuthToken (token : Option String) (st : ClientState) : ClientState :=
  if truthyStr token then { st with authToken := token, storedToken := token }
  else { st with authToken := token, storedToken := none }

/-- `getAuthHeaders`: a bearer header when a token is present, else the
dev-user-id header when set, else no credential header at all. -/
def getAuthHeaders (st : ClientState) : List (String × String) × ClientState :=
  let (token, st1) := getAuthToken st
  match token with
  | some t =>
      if !t.isEmpty then ([("Authorization", "Bearer " ++ t)], st1)
      else if truthyStr st1.devUserId then
        ([("X-Dev-User-Id", st1.devUserId.getD "")], st1)
      else ([], st1)
  | none =>
      if truthyStr st1.devUserId then
        ([("X-Dev-User-Id", st1.devUserId.getD "")], st1)
      else ([], st1)

/-- What one `fetch` would answer, supplied as an oracle: HTTP status,
`statusText`, the payload `response.json()` yields in the error branches
(`none` models a body that fails to parse, i.e. the `catch` producing
`null`), and the decoded value on success. -/
structure FetchEnv (α : Type) where
  status : Nat
  statusText : String
  errorPayload : Option ErrorPayload
  value : α

/-- Result of one `apiFetch` call. -/
inductive ApiOutcome (α : Type)
  | ok (v : α)
  | noContent
  | thrown (message : String)
  | apiError (message : String) (data : Option ErrorPayload)
  | suspended
deriving DecidableEq, Repr

/-- Externally visible effects of one `apiFetch` call, in order: awaiting
the auth gate, and the single `fetch` with the credential headers it
attached. -/
inductive ApiEffect
  | awaitGate
  | fetchCall (headers : List (String × String))
deriving DecidableEq, Repr

/-- The part of `apiFetch` from the `fetch` call onward: attach auth
headers, then dispatch on the response status (401/403 credential
invalidation and `auth_error`, generic non-2xx error with the payload's
`error` code or the status text, 204 empty success, JSON success). -/
def apiFetchNetwork {α : Type} (st1 : ClientState) (env : FetchEnv α)
    (pre : List ApiEffect) : ApiOutcome α × ClientState × List ApiEffect :=
  let (headers, st2) := getAuthHeaders st1
  let effects := pre ++ [ApiEffect.fetchCall headers]
  if env.status = 401 ∨ env.status = 403 then
    let detail := env.errorPayload.bind (·.detail)
    let st3 :=
      match detail with
      | some d =>
          if d = "token_expired" ∨ d = "token_invalid" ∨ d = "token_missing" then
            setAuthToken none st2
          else st2
      | none => st2
    (.apiError "auth_error" env.errorPayload, st3, effects)
  else if ¬ (200 ≤ env.status ∧ env.status ≤ 299) then
    let msg :=
      match env.errorPayload.bind (·.error) with
      | some e => if !e.isEmpty then e else env.statusText
      | none => env.statusText
    (.apiError msg env.errorPayload, st2, effects)
  else if env.status = 204 then (.noContent, st2, effects)
  else (.ok env.value, st2, effects)

/-- `apiFetch`: read the dev id and the token; for an auth-requiring call
with neither credential, fail with `auth_missing` when the identity
singleton is empty (before any network traffic), otherwise await the auth
gate; then perform the network phase.  A pending gate suspends the call. -/
def apiFetchRun {α : Type} (st0 : ClientState) (requiresAuth : Bool)
    (env : FetchEnv α) : ApiOutcome α × ClientState × List ApiEffect :=
  let devUserId := st0.devUserId
  let (token, st1) := getAuthToken st0
  if requiresAuth ∧ ¬ truthyStr token ∧ ¬ truthyStr devUserId then
    if st1.currentInitData.isEmpty then (.thrown "auth_missing", st1, [])
    else
      match AuthGate.waitForAuthReadySync ⟨st1.authStatus, false⟩ with
      | some .ok => apiFetchNetwork st1 env [.awaitGate]
      | some (.thrown m) => (.thrown m, st1, [.awaitGate])
      | none => (.suspended, st1, [.awaitGate])
  else apiFetchNetwork st1 env []

end Client

namespace Resolver

/-- The init-data source tags of `part_005` (`InitDataSource`); the TS
union also contains `null`, embedded as `Option InitDataSource`. -/
inductive InitDataSource
  | telegram
  | urlSearch
  | urlHash
deriving DecidableEq, Repr

/-- What the host environment exposes at the instant of one read: the
native channel (`Telegram.WebApp.initData ?? ""`), and the already-parsed
`tgWebAppData` parameters of the URL query string and fragment
(`URLSearchParams.get`, `null` when absent).  URL parsing itself is pure
string plumbing and is abstracted into these two fields. -/
structure HostSnapshot where
  telegramInitData : String
  searchParam : Option String
  hashParam : Option String
deriving DecidableEq, Repr

/-- `readInitDataFromUrl`: query-string parameter first, then the fragment
parameter, else empty value with `null` source. -/
def readInitDataFromUrl (w : HostSnapshot) : String × Option InitDataSource :=
  if truthyStr w.searchParam then (w.searchParam.getD "", some .urlSearch)
  else if truthyStr w.hashParam then (w.hashParam.getD "", some .urlHash)
  else ("", none)

/-- `readInitData`: the native channel wins when non-empty, otherwise the
URL fallbacks. -/
def readInitData (w : HostSnapshot) : String × Option InitDataSource :=
  if !w.telegramInitData.isEmpty then (w.telegramInitData, some .telegram)
  else readInitDataFromUrl w

/-- The `for` loop of `retryInitData`: with `attempt` iterations already
done and `remaining` left, delay, re-read (the host environment is indexed
by read number, so iteration `attempt` reads snapshot `attempt + 1`),
return on a non-empty value.  Also returns the total number of reads
performed, to make early termination observable. -/
def retryLoop (host : Nat → HostSnapshot) (attempt : Nat) :
    Nat → (String × Option InitDataSource) × Nat
  | 0 => (("", none), attempt + 1)
  | remaining + 1 =>
      let r := readInitData (host (attempt + 1))
      if !r.1.isEmpty then (r, attempt + 2)
      else retryLoop host (attempt + 1) remaining

/-- `retryInitData`: one immediate read, then up to `retries` delayed
re-reads, stopping at the first non-empty value.  The second component
counts the reads performed. -/
def retryInitData (host : Nat → HostSnapshot) (retries : Nat) :
    (String × Option InitDataSource) × Nat :=
  let result := readInitData (host 0)
  if !result.1.isEmpty then (result, 1)
  else retryLoop host 0 retries

/-- The resolver singleton plus the provider state the refresh task
writes: `currentInitData`/`currentInitDataSource`, the freshness
`timestamp` and the `isChecking` flag. -/
structure ResolverState where
  currentInitData : String
  currentInitDataSource : Option InitDataSource
  timestamp : Nat
  isChecking : Bool
deriving DecidableEq, Repr

/-- The body of the refresh task inside `refreshInitData`: run the retry
loop against the host environment, then overwrite the singleton, the
provider state and the timestamp.  Both branches of the task return
normally (the model is a total function: no exception escapes). -/
def refreshTask (host : Nat → HostSnapshot) (retries : Nat) (now : Nat)
    (_st : ResolverState) : ResolverState :=
  let data := (retryInitData host retries).1
  { currentInitData := data.1
    currentInitDataSource := data.2
    timestamp := now
    isChecking := false }

/-- The in-flight bookkeeping of `refreshInitData` (`inflightRef`): the
identity of the currently running task, if any, a counter to mint task
identities, and how many retry loops have ever been started. -/
structure InflightState where
  inflight : Option Nat
  nextTaskId : Nat
  loopsStarted : Nat
deriving DecidableEq, Repr

/-- One invocation of `refreshInitData` up to its return: if a task is in
flight its promise is returned as-is; otherwise a fresh task (one retry
loop) is created, recorded in `inflightRef`, and returned.  Returns the
identity of the task the caller awaits. -/
def refreshInvoke (s : InflightState) : Nat × InflightState :=
  match s.inflight with
  | some id => (id, s)
  | none =>
      (s.nextTaskId,
       { inflight := some s.nextTaskId
         nextTaskId := s.nextTaskId + 1
         loopsStarted := s.loopsStarted + 1 })

/-- The `finally` of the refresh task: clear `inflightRef`. -/
def refreshSettle (s : InflightState) : InflightState :=
  { s with inflight := none }

end Resolver

namespace WatchFlow

/-- `WatchStatus` from the watch-flow store (`part_004`). -/
inductive WatchStatus
  | idle
  | requesting
  | ad_gate
  | dispatching
  | queued
  | error
  | ads_cooldown
deriving DecidableEq, Repr

/-- `WatchRequestPayload` (`api/types`): the selection sent to
`/watch/request`. -/
structure WatchRequestPayload where
  title_id : Int
  episode_id : Option Int
  audio_id : Int
  quality_id : Int
deriving DecidableEq, Repr

/-- `WatchState` from the watch-flow store. -/
structure WatchState where
  status : WatchStatus
  params : Option WatchRequestPayload
  variantId : Option Int
  message : Option String := none
deriving DecidableEq, Repr

/-- `WatchAction` from the watch-flow store. -/
inductive WatchAction
  | set_params (payload : WatchRequestPayload)
  | request_start
  | ad_gate (variantId : Int)
  | dispatching (variantId : Int)
  | queued (variantId : Int)
  | error (message : String)
  | ads_cooldown (message : String)
  | reset
deriving DecidableEq, Repr

/-- `initialState` of the watch-flow store. -/
def initialState : WatchState :=
  { status := .idle, params := none, variantId := none, message := none }

/-- The watch-flow `reducer`. -/
def reducer (state : WatchState) : WatchAction → WatchState
  | .set_params payload => { state with params := some payload }
  | .request_start => { state with status := .requesting, message := none }
  | .ad_gate variantId => { state with status := .ad_gate, variantId := some variantId }
  | .dispatching variantId =>
      { state with status := .dispatching, variantId := some variantId }
  | .queued variantId => { state with status := .queued, variantId := some variantId }
  | .error message => { state with status := .error, message := some message }
  | .ads_cooldown message =>
      { state with status := .ads_cooldown, message := some message }
  | .reset => initialState

/-- The sequence of states the store passes through when a list of actions
is dispatched in order, starting state included. -/
def stateTrace (s : WatchState) (actions : List WatchAction) : List WatchState :=
  actions.scanl reducer s

/-- The statuses along a trace. -/
def statusTrace (s : WatchState) (actions : List WatchAction) : List WatchStatus :=
  (stateTrace s actions).map (·.status)

/-- Collapse consecutive duplicates, to read a status trace as the
sequence of distinct statuses visited. -/
def dedupConsecutive : List WatchStatus → List WatchStatus
  | [] => []
  | [a] => [a]
  | a :: b :: rest =>
      if a = b then dedupConsecutive (b :: rest)
      else a :: dedupConsecutive (b :: rest)

end WatchFlow

namespace Pages

open WatchFlow

/-- A thrown JS error as the pages observe it: an `ApiError` carrying the
server payload, or a plain `Error`. -/
inductive JsError
  | apiError (message : String) (data : Option Client.ErrorPayload)
  | plain (message : String)
deriving DecidableEq, Repr

/-- `err.message`. -/
def JsError.message : JsError → String
  | .apiError m _ => m
  | .plain m => m

/-- `err instanceof ApiError && err.message === "variant_not_found"`. -/
def JsError.isVariantNotFound : JsError → Bool
  | .apiError m _ => m = "variant_not_found"
  | .plain _ => false

/-- `WatchResolveResponse` (`api/types`). -/
structure WatchResolveResponse where
  variant_id : Int
  audio_id : Int
  quality_id : Int
deriving DecidableEq, Repr

/-- The `mode` discriminator of `WatchResponse`. -/
inductive WatchMode
  | direct
  | ad_gate
deriving DecidableEq, Repr

/-- `WatchResponse` (`api/types`), the fields `handleWatch` uses. -/
structure WatchResponse where
  mode : WatchMode
  variant_id : Int
deriving DecidableEq, Repr

/-- `WatchResolvePayload` (`api/types`): the body sent to `/watch/resolve`,
with nullable audio/quality. -/
structure WatchResolvePayload where
  title_id : Int
  episode_id : Option Int
  audio_id : Option Int
  quality_id : Option Int
deriving DecidableEq, Repr

/-- `/ads/start` success body. -/
structure AdsStartResponse where
  nonce : String
  ttl : Int
deriving DecidableEq, Repr

/-- `TitleDetail`, restricted to the fields the watch handlers read. -/
inductive TitleType
  | movie
  | series
deriving DecidableEq, Repr

/-- The title loaded on the page. -/
structure TitleDetail where
  id : Int
  type : TitleType
deriving DecidableEq, Repr

/-- The API calls a handler issues, in order. -/
inductive TitleCall
  | resolve (payload : WatchResolvePayload)
  | request (payload : WatchRequestPayload)
  | dispatch (variantId : Int)
deriving DecidableEq, Repr

/-- The two durable preference entries of `TitlePage`
(`kina:preferred_audio_id`, `kina:preferred_quality_id`), already parsed
as numbers (`readStoredNumber`). -/
structure PrefStorage where
  preferredAudioId : Option Int
  preferredQualityId : Option Int
deriving DecidableEq, Repr

/-- `persistNumber`: the slot's content after the call — removed on
`null`, the stringified number otherwise. -/
def persistNumber (value : Option Int) : Option Int :=
  match value with
  | none => none
  | some v => some v

/-- The value of the `resolveStatus` state when set. -/
inductive ResolveAvail
  | available
  | unavailable
deriving DecidableEq, Repr

/-- The `TitlePage` component state the watch handlers read and write. -/
structure TitleComponentState where
  audioId : Option Int
  qualityId : Option Int
  selectedEpisodeId : Option Int
  resolveStatus : Option ResolveAvail
  resolvedSelection : Option (Int × Int)
deriving DecidableEq, Repr

/-- `resolveSelection` of `TitlePage`: guard on title and episode, call
`/watch/resolve`, and on success record availability, the echoed
selection, and persist both preference slots; on `variant_not_found` mark
unavailable and clear the echoed selection without touching storage; on
any other failure clear the pill without touching storage. -/
def resolveSelection (title : Option TitleDetail)
    (nextAudioId nextQualityId : Option Int)
    (env : Except JsError WatchResolveResponse)
    (comp : TitleComponentState) (storage : PrefStorage) :
    TitleComponentState × PrefStorage × List TitleCall :=
  match title with
  | none => (comp, storage, [])
  | some t =>
      if t.type = .series ∧ ¬ truthyInt comp.selectedEpisodeId then
        (comp, storage, [])
      else
        let episodeId := if t.type = .series then comp.selectedEpisodeId else none
        let rp : WatchResolvePayload :=
          { title_id := t.id, episode_id := episodeId,
            audio_id := nextAudioId, quality_id := nextQualityId }
        match env with
        | .ok response =>
            ({ comp with
                resolveStatus := some .available
                resolvedSelection := some (response.audio_id, response.quality_id)
                audioId := some response.audio_id
                qualityId := some response.quality_id },
             { storage with
                preferredAudioId := persistNumber (some response.audio_id)
                preferredQualityId := persistNumber (some response.quality_id) },
             [.resolve rp])
        | .error e =>
            if e.isVariantNotFound then
              ({ comp with resolveStatus := some .unavailable, resolvedSelection := none },
               storage, [.resolve rp])
            else
              ({ comp with resolveStatus := none }, storage, [.resolve rp])

/-- The audio `select`'s `onChange` handler: set the state, persist the
newly chosen audio id, then resolve the new pair. -/
def onAudioChange (nextAudioId : Int) (title : Option TitleDetail)
    (env : Except JsError WatchResolveResponse)
    (comp : TitleComponentState) (storage : PrefStorage) :
    TitleComponentState × PrefStorage × List TitleCall :=
  let comp1 := { comp with audioId := some nextAudioId }
  let storage1 := { storage with preferredAudioId := persistNumber (some nextAudioId) }
  resolveSelection title (some nextAudioId) comp.qualityId env comp1 storage1

/-- The quality `select`'s `onChange` handler: set the state, persist the
newly chosen quality id, then resolve the new pair. -/
def onQualityChange (nextQualityId : Int) (title : Option TitleDetail)
    (env : Except JsError WatchResolveResponse)
    (comp : TitleComponentState) (storage : PrefStorage) :
    TitleComponentState × PrefStorage × List TitleCall :=
  let comp1 := { comp with qualityId := some nextQualityId }
  let storage1 := { storage with preferredQualityId := persistNumber (some nextQualityId) }
  resolveSelection title comp.audioId (some nextQualityId) env comp1 storage1

/-- The network oracle for one `handleWatch` run: what each of the three
calls it can issue would answer. -/
structure TitleApiEnv where
  resolveResult : Except JsError WatchResolveResponse
  requestResult : Except JsError WatchResponse
  dispatchResult : Except JsError Bool
deriving Repr

/-- Everything one `handleWatch` run produces: the component state after
its `set*` calls, the watch-flow actions dispatched in order, the API
calls issued in order, and whether it navigated to `/ad`. -/
structure HandleWatchOut where
  comp : TitleComponentState
  actions : List WatchAction
  calls : List TitleCall
  navigatedToAd : Bool
deriving Repr

/-- `handleWatch` of `TitlePage`: guard on title/audio/quality/episode,
re-resolve the current selection (failure dispatches an `error` and
stops), then `set_params` + `request_start`, then `/watch/request`; a
`direct` response dispatches immediately and reaches `queued` on dispatch
success, an `ad_gate` response stores the variant and navigates to the ad
page; any failure in that second phase dispatches `error`. -/
def handleWatch (title : Option TitleDetail) (comp : TitleComponentState)
    (env : TitleApiEnv) : HandleWatchOut :=
  match title with
  | none => { comp := comp, actions := [], calls := [], navigatedToAd := false }
  | some t =>
      if ¬ truthyInt comp.audioId ∨ ¬ truthyInt comp.qualityId then
        { comp := comp, actions := [], calls := [], navigatedToAd := false }
      else if t.type = .series ∧ ¬ truthyInt comp.selectedEpisodeId then
        { comp := comp, actions := [], calls := [], navigatedToAd := false }
      else
        let episodeId := if t.type = .series then comp.selectedEpisodeId else none
        let rp : WatchResolvePayload :=
          { title_id := t.id, episode_id := episodeId,
            audio_id := comp.audioId, quality_id := comp.qualityId }
        match env.resolveResult with
        | .error e =>
            if e.isVariantNotFound then
              { comp := { comp with resolveStatus := some .unavailable }
                actions := [.error "Выбранный вариант недоступен."]
                calls := [.resolve rp], navigatedToAd := false }
            else
              { comp := comp
                actions := [.error "Не удалось проверить вариант."]
                calls := [.resolve rp], navigatedToAd := false }
        | .ok resolved =>
            let comp1 :=
              { comp with
                  resolvedSelection := some (resolved.audio_id, resolved.quality_id)
                  resolveStatus := some .available }
            let payload : WatchRequestPayload :=
              { title_id := t.id, episode_id := episodeId,
                audio_id := resolved.audio_id, quality_id := resolved.quality_id }
            let base : List WatchAction := [.set_params payload, .request_start]
            match env.requestResult with
            | .error e =>
                { comp := comp1, actions := base ++ [.error e.message]
                  calls := [.resolve rp, .request payload], navigatedToAd := false }
            | .ok response =>
                match response.mode with
                | .direct =>
                    match env.dispatchResult with
                    | .ok _ =>
                        { comp := comp1
                          actions := base ++
                            [.dispatching response.variant_id, .queued response.variant_id]
                          calls := [.resolve rp, .request payload,
                                    .dispatch response.variant_id]
                          navigatedToAd := false }
                    | .error e =>
                        { comp := comp1
                          actions := base ++
                            [.dispatching response.variant_id, .error e.message]
                          calls := [.resolve rp, .request payload,
                                    .dispatch response.variant_id]
                          navigatedToAd := false }
                | .ad_gate =>
                    { comp := comp1
                      actions := base ++ [.ad_gate response.variant_id]
                      calls := [.resolve rp, .request payload]
                      navigatedToAd := true }

/-- `AD_TIMER_SECONDS` of `AdPage`. -/
def AD_TIMER_SECONDS : Int := 10

/-- The `AdPage` component state the ad-start effect touches. -/
structure AdComponentState where
  nonce : Option String
  secondsLeft : Int
  cooldownMessage : Option String
  completed : Bool
deriving DecidableEq, Repr

/-- The `startAds` effect of `AdPage`: with no variant id, navigate home;
on ad-start success store the nonce and reset the timer; on an
`ad_cooldown` failure build the user-facing cooldown message (with the
payload's `retry_after` when it is a number, else a generic suffix) and
dispatch `ads_cooldown` with the raw error message; any other failure
dispatches `error`.  Returns the component state, the watch-flow action
dispatched (if any), and whether it navigated home. -/
def startAds (watch : WatchState) (env : Except JsError AdsStartResponse)
    (comp : AdComponentState) : AdComponentState × Option WatchAction × Bool :=
  if ¬ truthyInt watch.variantId then (comp, none, true)
  else
    match env with
    | .ok response =>
        ({ comp with nonce := some response.nonce, secondsLeft := AD_TIMER_SECONDS },
         none, false)
    | .error err =>
        let message := err.message
        if message = "ad_cooldown" then
          let retryAfter : Option Int :=
            match err with
            | .apiError _ d => d.bind (·.retry_after)
            | .plain _ => none
          let suffix :=
            if truthyInt retryAfter then
              " через " ++ toString (retryAfter.getD 0) ++ " сек"
            else " позже"
          ({ comp with
              cooldownMessage := some ("Реклама уже недавно была, попробуй" ++ suffix ++ ".") },
           some (.ads_cooldown message), false)
        else (comp, some (.error message), false)

end Pages

/-- C1: after `resetAuthGate()` and exactly one terminal mark, every
`waitForAuthReady()` issued while the gate was still pending resolves
consistently with that mark — all succeed for `markAuthReady`, all throw
`auth_missing` for `markAuthMissing` and `auth_failed` for
`markAuthFailed` — and a `waitForAuthReady()` issued when the status is
already `ready` returns immediately without suspending. -/
theorem authGate_fanout_consistent (m : AuthGate.Mark) (k : Nat) (b : Bool) :
    AuthGate.gateRun m k = List.replicate k (AuthGate.markOutcome m)
    ∧ AuthGate.markOutcome .ready = .ok
    ∧ AuthGate.markOutcome .missing = .thrown "auth_missing"
    ∧ AuthGate.markOutcome .failed = .thrown "auth_failed"
    ∧ AuthGate.waitForAuthReadySync ⟨.ready, b⟩ = some .ok := by
  refine ⟨?_, rfl, rfl, rfl, rfl⟩
  cases m <;> rfl

/-- C3: an auth-requiring `apiFetch` call made with no bearer token (cached
or stored), no dev-user-id and an empty identity singleton throws
`auth_missing` at once: the effect list is empty, so the auth gate is
never awaited and `fetch` is never invoked. -/
theorem apiFetch_authMissing_noFetch {α : Type} (env : Client.FetchEnv α)
    (st : Client.ClientState)
    (hTok : st.authToken = none) (hStored : st.storedToken = none)
    (hDev : st.devUserId = none) (hInit : st.currentInitData = "") :
    Client.apiFetchRun st true env = (.thrown "auth_missing", st, []) := by
  obtain ⟨a, b, c, d, e⟩ := st
  simp only at hTok hStored hDev hInit
  subst hTok hStored hDev hInit
  simp [Client.apiFetchRun, Client.getAuthToken, truthyStr]
  intro hf
  exact absurd hf (by decide)

/-- Witness for `apiFetch_authMissing_noFetch` at a concrete state and
response oracle. -/
theorem apiFetch_authMissing_noFetch_witness :
    Client.apiFetchRun ⟨none, none, none, "", .pending⟩ true
      (⟨200, "OK", none, ()⟩ : Client.FetchEnv Unit)
      = (.thrown "auth_missing", ⟨none, none, none, "", .pending⟩, []) :=
  apiFetch_authMissing_noFetch _ _ rfl rfl rfl rfl

/-- C2: when the watch request answers `mode: "direct"` (and resolution and
dispatch succeed), `handleWatch` drives the watch-flow state through
exactly `idle → requesting → dispatching → queued`, with the dispatch call
issued immediately after the direct response and `queued` reached on its
success; the status `ad_gate` never occurs anywhere in the attempt's
trace: the handler issues resolve, request and dispatch and never
navigates to the ad page. -/
theorem watchFlow_direct_trace (t : Pages.TitleDetail)
    (comp : Pages.TitleComponentState) (env : Pages.TitleApiEnv)
    (s0 : WatchFlow.WatchState) (r : Pages.WatchResolveResponse)
    (resp : Pages.WatchResponse) (q : Bool)
    (hA : truthyInt comp.audioId = true) (hQ : truthyInt comp.qualityId = true)
    (hE : t.type = .series → truthyInt comp.selectedEpisodeId = true)
    (hres : env.resolveResult = .ok r) (hreq : env.requestResult = .ok resp)
    (hmode : resp.mode = .direct) (hdisp : env.dispatchResult = .ok q)
    (hidle : s0.status = .idle) :
    (Pages.handleWatch (some t) comp env).actions =
      [.set_params ⟨t.id, (if t.type = .series then comp.selectedEpisodeId else none),
          r.audio_id, r.quality_id⟩,
        .request_start, .dispatching resp.variant_id, .queued resp.variant_id]
    ∧ WatchFlow.dedupConsecutive
        (WatchFlow.statusTrace s0 (Pages.handleWatch (some t) comp env).actions)
        = [.idle, .requesting, .dispatching, .queued]
    ∧ WatchFlow.WatchStatus.ad_gate ∉
        WatchFlow.statusTrace s0 (Pages.handleWatch (some t) comp env).actions
    ∧ (Pages.handleWatch (some t) comp env).calls =
        [.resolve ⟨t.id, (if t.type = .series then comp.selectedEpisodeId else none),
            comp.audioId, comp.qualityId⟩,
          .request ⟨t.id, (if t.type = .series then comp.selectedEpisodeId else none),
            r.audio_id, r.quality_id⟩,
          .dispatch resp.variant_id]
    ∧ (Pages.handleWatch (some t) comp env).navigatedToAd = false := by
  cases htt : t.type
  case movie =>
    simp [Pages.handleWatch, hA, hQ, hres, hreq, hmode, hdisp, htt, hidle,
      WatchFlow.statusTrace, WatchFlow.stateTrace, WatchFlow.dedupConsecutive,
      WatchFlow.reducer, List.scanl]
  case series =>
    have hEp := hE htt
    simp [Pages.handleWatch, hA, hQ, hEp, hres, hreq, hmode, hdisp, htt, hidle,
      WatchFlow.statusTrace, WatchFlow.stateTrace, WatchFlow.dedupConsecutive,
      WatchFlow.reducer, List.scanl]

/-- Witness for `watchFlow_direct_trace` on a concrete movie, selection,
direct-mode oracle and the store's initial state. -/
theorem watchFlow_direct_trace_witness :
    (Pages.handleWatch (some ⟨1, .movie⟩) ⟨some 2, some 3, none, none, none⟩
        ⟨.ok ⟨5, 2, 3⟩, .ok ⟨.direct, 5⟩, .ok true⟩).actions =
      [.set_params ⟨(1 : Int),
          (if Pages.TitleType.movie = .series then (none : Option Int) else none),
          2, 3⟩,
        .request_start, .dispatching 5, .queued 5]
    ∧ WatchFlow.dedupConsecutive
        (WatchFlow.statusTrace WatchFlow.initialState
          (Pages.handleWatch (some ⟨1, .movie⟩) ⟨some 2, some 3, none, none, none⟩
            ⟨.ok ⟨5, 2, 3⟩, .ok ⟨.direct, 5⟩, .ok true⟩).actions)
        = [.idle, .requesting, .dispatching, .queued]
    ∧ WatchFlow.WatchStatus.ad_gate ∉
        WatchFlow.statusTrace WatchFlow.initialState
          (Pages.handleWatch (some ⟨1, .movie⟩) ⟨some 2, some 3, none, none, none⟩
            ⟨.ok ⟨5, 2, 3⟩, .ok ⟨.direct, 5⟩, .ok true⟩).actions
    ∧ (Pages.handleWatch (some ⟨1, .movie⟩) ⟨some 2, some 3, none, none, none⟩
        ⟨.ok ⟨5, 2, 3⟩, .ok ⟨.direct, 5⟩, .ok true⟩).calls =
        [.resolve ⟨(1 : Int),
            (if Pages.TitleType.movie = .series then (none : Option Int) else none),
            some 2, some 3⟩,
          .request ⟨(1 : Int),
            (if Pages.TitleType.movie = .series then (none : Option Int) else none),
            2, 3⟩,
          .dispatch 5]
    ∧ (Pages.handleWatch (some ⟨1, .movie⟩) ⟨some 2, some 3, none, none, none⟩
        ⟨.ok ⟨5, 2, 3⟩, .ok ⟨.direct, 5⟩, .ok true⟩).navigatedToAd = false :=
  watchFlow_direct_trace ⟨1, .movie⟩ ⟨some 2, some 3, none, none, none⟩
    ⟨.ok ⟨5, 2, 3⟩, .ok ⟨.direct, 5⟩, .ok true⟩ WatchFlow.initialState
    ⟨5, 2, 3⟩ ⟨.direct, 5⟩ true (by decide) (by decide) (by decide)
    rfl rfl rfl rfl rfl

/-- C4 counterexample: with audio preference `1` and quality preference
`99` stored, changing the audio selection to `99` while the resolve of
`{title_id: 1, episode_id: null, audio_id: 99, quality_id: 99}` fails with
`variant_not_found` leaves storage holding `{audio: 99, quality: 99}` —
the newly chosen value was persisted speculatively by the `onChange`
handler before the resolve, so the previously stored preference is NOT
left unchanged. -/
theorem prefPersist_unchanged_cex :
    (Pages.onAudioChange 99 (some ⟨1, .movie⟩)
        (.error (.apiError "variant_not_found" none))
        ⟨some 1, some 99, none, none, none⟩ ⟨some 1, some 99⟩).2.1
      = ⟨some 99, some 99⟩
    ∧ (Pages.onAudioChange 99 (some ⟨1, .movie⟩)
        (.error (.apiError "variant_not_found" none))
        ⟨some 1, some 99, none, none, none⟩ ⟨some 1, some 99⟩).2.1
      ≠ ⟨some 1, some 99⟩
    ∧ (Pages.onAudioChange 99 (some ⟨1, .movie⟩)
        (.error (.apiError "variant_not_found" none))
        ⟨some 1, some 99, none, none, none⟩ ⟨some 1, some 99⟩).2.2
      = [.resolve ⟨1, none, some 99, some 99⟩] := by
  refine ⟨by decide, by decide, by decide⟩

/-- C4 amended: `resolveSelection` itself writes the persisted preferences
only after a successful resolution response — on any failing resolve
(`variant_not_found` included) it leaves storage exactly as it received
it; however, the audio/quality `onChange` handlers persist the newly
chosen id speculatively before resolving, so after a selection change
whose resolve fails, storage holds the newly chosen value rather than the
previous one. -/
theorem prefPersist_afterSuccessOnly (title : Option Pages.TitleDetail)
    (a q : Option Int) (e : Pages.JsError)
    (comp : Pages.TitleComponentState) (storage : Pages.PrefStorage) (n : Int) :
    (Pages.resolveSelection title a q (.error e) comp storage).2.1 = storage
    ∧ (Pages.onAudioChange n title (.error e) comp storage).2.1
        = { storage with preferredAudioId := some n }
    ∧ (Pages.onQualityChange n title (.error e) comp storage).2.1
        = { storage with preferredQualityId := some n } := by
  have key : ∀ (a q : Option Int) (c : Pages.TitleComponentState)
      (s : Pages.PrefStorage),
      (Pages.resolveSelection title a q (.error e) c s).2.1 = s := by
    intro a q c s
    cases title with
    | none => rfl
    | some t =>
        simp only [Pages.resolveSelection]
        split
        · rfl
        · split <;> rfl
  refine ⟨key a q comp storage, ?_, ?_⟩ <;>
    simp [Pages.onAudioChange, Pages.onQualityChange, Pages.persistNumber, key]

/-- C5 counterexample: after a 401 carrying `detail: "token_expired"`
clears the stored bearer token (both cache and durable entry), the next
auth-requiring call made with no token and no dev-user-id — while the
HostIdentity singleton holds `"abc"` — performs its fetch with an EMPTY
header list: this client never attaches the identity as a header (the
claim's fallback-to-identity-header half is false for `client.ts`). -/
theorem tokenExpired_identityHeader_cex :
    (Client.apiFetchRun ⟨some "tok", some "tok", none, "abc", .ready⟩ false
        (⟨401, "Unauthorized", some ⟨some "token_expired", none, none⟩, ()⟩ :
          Client.FetchEnv Unit)).2.1.authToken = none
    ∧ (Client.apiFetchRun ⟨some "tok", some "tok", none, "abc", .ready⟩ false
        (⟨401, "Unauthorized", some ⟨some "token_expired", none, none⟩, ()⟩ :
          Client.FetchEnv Unit)).2.1.storedToken = none
    ∧ (Client.apiFetchRun
        (Client.apiFetchRun ⟨some "tok", some "tok", none, "abc", .ready⟩ false
          (⟨401, "Unauthorized", some ⟨some "token_expired", none, none⟩, ()⟩ :
            Client.FetchEnv Unit)).2.1 true
        (⟨200, "OK", none, ()⟩ : Client.FetchEnv Unit)).2.2
      = [.awaitGate, .fetchCall []] := by
  refine ⟨by decide, by decide, by decide⟩

/-- C5 amended: a 401 whose payload carries `detail: "token_expired"`
clears the bearer token from both the in-memory cache and durable storage;
a subsequent call made with no bearer token and no dev-user-id attaches NO
credential header at all (`getAuthHeaders` yields the empty header list —
the HostIdentity is never forwarded as a header by this client; it is sent
only in the auth call's request body). -/
theorem tokenExpired_clearsToken_noHeader {α : Type} (st : Client.ClientState)
    (env : Client.FetchEnv α) (p : Client.ErrorPayload)
    (hS : env.status = 401) (hp : env.errorPayload = some p)
    (hd : p.detail = some "token_expired") :
    (Client.apiFetchRun st false env).2.1.authToken = none
    ∧ (Client.apiFetchRun st false env).2.1.storedToken = none
    ∧ ∀ st2 : Client.ClientState, st2.authToken = none →
        st2.storedToken = none → st2.devUserId = none →
        (Client.getAuthHeaders st2).1 = [] := by
  refine ⟨?_, ?_, ?_⟩
  · simp [Client.apiFetchRun, Client.apiFetchNetwork, Client.setAuthToken,
      truthyStr, hS, hp, hd]
  · simp [Client.apiFetchRun, Client.apiFetchNetwork, Client.setAuthToken,
      truthyStr, hS, hp, hd]
  · intro st2 h1 h2 h3
    simp [Client.getAuthHeaders, Client.getAuthToken, truthyStr, h1, h2, h3]

/-- Witness for `tokenExpired_clearsToken_noHeader` at a concrete client
state and 401 response. -/
theorem tokenExpired_clearsToken_noHeader_witness :
    (Client.apiFetchRun ⟨some "tok", some "tok", none, "abc", .ready⟩ false
        (⟨401, "Unauthorized", some ⟨some "token_expired", none, none⟩, ()⟩ :
          Client.FetchEnv Unit)).2.1.authToken = none
    ∧ (Client.apiFetchRun ⟨some "tok", some "tok", none, "abc", .ready⟩ false
        (⟨401, "Unauthorized", some ⟨some "token_expired", none, none⟩, ()⟩ :
          Client.FetchEnv Unit)).2.1.storedToken = none
    ∧ ∀ st2 : Client.ClientState, st2.authToken = none →
        st2.storedToken = none → st2.devUserId = none →
        (Client.getAuthHeaders st2).1 = [] :=
  tokenExpired_clearsToken_noHeader ⟨some "tok", some "tok", none, "abc", .ready⟩
    ⟨401, "Unauthorized", some ⟨some "token_expired", none, none⟩, ()⟩
    ⟨some "token_expired", none, none⟩ rfl rfl rfl

/-- C6 counterexample: an ad-start failure `ad_cooldown` with
`retry_after: 30` dispatches `ads_cooldown` with the bare message
`"ad_cooldown"`; the resulting watch-flow state is literally identical to
the one produced with `retry_after: 99`, so the watch-flow state does NOT
carry the `retry_after` value (it lives only in the page-local cooldown
message). -/
theorem adsCooldown_carry_cex :
    (Pages.startAds ⟨.ad_gate, some ⟨1, none, 2, 3⟩, some 7, none⟩
        (.error (.apiError "ad_cooldown" (some ⟨none, none, some 30⟩)))
        ⟨none, 10, none, false⟩).2.1 = some (.ads_cooldown "ad_cooldown")
    ∧ WatchFlow.reducer ⟨.ad_gate, some ⟨1, none, 2, 3⟩, some 7, none⟩
        (.ads_cooldown "ad_cooldown")
      = ⟨.ads_cooldown, some ⟨1, none, 2, 3⟩, some 7, some "ad_cooldown"⟩
    ∧ (Pages.startAds ⟨.ad_gate, some ⟨1, none, 2, 3⟩, some 7, none⟩
        (.error (.apiError "ad_cooldown" (some ⟨none, none, some 30⟩)))
        ⟨none, 10, none, false⟩).2.1
      = (Pages.startAds ⟨.ad_gate, some ⟨1, none, 2, 3⟩, some 7, none⟩
          (.error (.apiError "ad_cooldown" (some ⟨none, none, some 99⟩)))
          ⟨none, 10, none, false⟩).2.1 := by
  refine ⟨by decide, by decide, by decide⟩

/-- C6 amended: an ad-start failure `ad_cooldown` with a numeric non-zero
`retry_after` dispatches `ads_cooldown` carrying the raw message
`"ad_cooldown"`, moving the watch-flow state to status `ads_cooldown` with
`variantId` (and `params`) untouched; the `retry_after` value is carried
by the page-local cooldown message text, not by the watch-flow state. -/
theorem adsCooldown_state_amended (watch : WatchFlow.WatchState)
    (comp : Pages.AdComponentState) (d : Client.ErrorPayload) (n : Int)
    (hv : truthyInt watch.variantId = true)
    (hr : d.retry_after = some n) (hn : n ≠ 0) :
    (Pages.startAds watch (.error (.apiError "ad_cooldown" (some d))) comp).2.1
      = some (.ads_cooldown "ad_cooldown")
    ∧ (Pages.startAds watch
        (.error (.apiError "ad_cooldown" (some d))) comp).1.cooldownMessage
      = some ("Реклама уже недавно была, попробуй"
          ++ (" через " ++ toString n ++ " сек") ++ ".")
    ∧ (WatchFlow.reducer watch (.ads_cooldown "ad_cooldown")).status
      = .ads_cooldown
    ∧ (WatchFlow.reducer watch (.ads_cooldown "ad_cooldown")).message
      = some "ad_cooldown"
    ∧ (WatchFlow.reducer watch (.ads_cooldown "ad_cooldown")).variantId
      = watch.variantId
    ∧ (WatchFlow.reducer watch (.ads_cooldown "ad_cooldown")).params
      = watch.params := by
  have hb : (n != 0) = true := by simpa using hn
  have ht : truthyInt (some n) = true := hb
  refine ⟨?_, ?_, rfl, rfl, rfl, rfl⟩ <;>
    simp [Pages.startAds, Pages.JsError.message, hv, hr, ht]

/-- Witness for `adsCooldown_state_amended` at `retry_after = 30` and a
concrete ad-gate state. -/
theorem adsCooldown_state_amended_witness :
    (Pages.startAds ⟨.ad_gate, some ⟨1, none, 2, 3⟩, some 7, none⟩
        (.error (.apiError "ad_cooldown" (some ⟨none, none, some 30⟩)))
        ⟨none, 10, none, false⟩).2.1 = some (.ads_cooldown "ad_cooldown")
    ∧ (Pages.startAds ⟨.ad_gate, some ⟨1, none, 2, 3⟩, some 7, none⟩
        (.error (.apiError "ad_cooldown" (some ⟨none, none, some 30⟩)))
        ⟨none, 10, none, false⟩).1.cooldownMessage
      = some ("Реклама уже недавно была, попробуй"
          ++ (" через " ++ toString (30 : Int) ++ " сек") ++ ".")
    ∧ (WatchFlow.reducer ⟨.ad_gate, some ⟨1, none, 2, 3⟩, some 7, none⟩
        (.ads_cooldown "ad_cooldown")).status = .ads_cooldown
    ∧ (WatchFlow.reducer ⟨.ad_gate, some ⟨1, none, 2, 3⟩, some 7, none⟩
        (.ads_cooldown "ad_cooldown")).message = some "ad_cooldown"
    ∧ (WatchFlow.reducer ⟨.ad_gate, some ⟨1, none, 2, 3⟩, some 7, none⟩
        (.ads_cooldown "ad_cooldown")).variantId
      = (⟨.ad_gate, some ⟨1, none, 2, 3⟩, some 7, none⟩ :
          WatchFlow.WatchState).variantId
    ∧ (WatchFlow.reducer ⟨.ad_gate, some ⟨1, none, 2, 3⟩, some 7, none⟩
        (.ads_cooldown "ad_cooldown")).params
      = (⟨.ad_gate, some ⟨1, none, 2, 3⟩, some 7, none⟩ :
          WatchFlow.WatchState).params :=
  adsCooldown_state_amended ⟨.ad_gate, some ⟨1, none, 2, 3⟩, some 7, none⟩
    ⟨none, 10, none, false⟩ ⟨none, none, some 30⟩ 30 (by decide) rfl (by decide)

/-- One unrolling of the retry loop: with fuel left, the loop performs the
next delayed read and either returns it (non-empty) or recurses. -/
theorem retryLoop_succ (host : Nat → Resolver.HostSnapshot) (attempt m : Nat) :
    Resolver.retryLoop host attempt (m + 1)
      = (if !(Resolver.readInitData (host (attempt + 1))).1.isEmpty then
          (Resolver.readInitData (host (attempt + 1)), attempt + 2)
        else Resolver.retryLoop host (attempt + 1) m) := rfl

/-- C7: when the first two reads find every identity source empty and the
host-native channel holds a non-empty value `v` at the third read,
`retryInitData` returns `v` with provenance `telegram` (host-native) after
exactly 3 reads — no identity-source read happens past attempt 3 — and
the refresh task resolves the singleton to that value and provenance, for
every configured attempt count of at least 3. -/
theorem resolver_attempt3_telegram (host : Nat → Resolver.HostSnapshot)
    (retries now : Nat) (st : Resolver.ResolverState) (v : String)
    (hN : 3 ≤ retries)
    (h0 : Resolver.readInitData (host 0) = ("", none))
    (h1 : Resolver.readInitData (host 1) = ("", none))
    (h2 : (host 2).telegramInitData = v) (hv : v ≠ "") :
    Resolver.retryInitData host retries = ((v, some .telegram), 3)
    ∧ Resolver.refreshTask host retries now st
      = ⟨v, some .telegram, now, false⟩ := by
  have hEmp : ("" : String).isEmpty = true := rfl
  have hvE : v.isEmpty = false := by
    cases hq : v.isEmpty
    · rfl
    · exact absurd ((String.isEmpty_iff v).mp hq) hv
  have hread2 : Resolver.readInitData (host 2) = (v, some .telegram) := by
    simp [Resolver.readInitData, h2, hvE]
  obtain ⟨r, rfl⟩ : ∃ r, retries = r + 3 := ⟨retries - 3, by omega⟩
  have e0 : Resolver.retryInitData host (r + 3)
      = Resolver.retryLoop host 0 (r + 3) := by
    simp [Resolver.retryInitData, h0, hEmp]
  have e1 : Resolver.retryLoop host 0 (r + 3)
      = Resolver.retryLoop host 1 (r + 2) := by
    rw [show r + 3 = (r + 2) + 1 from rfl, retryLoop_succ]
    simp [h1, hEmp]
  have e2 : Resolver.retryLoop host 1 (r + 2) = ((v, some .telegram), 3) := by
    rw [show r + 2 = (r + 1) + 1 from rfl, retryLoop_succ]
    simp [hread2, hvE]
  have hmain : Resolver.retryInitData host (r + 3) = ((v, some .telegram), 3) := by
    rw [e0, e1, e2]
  exact ⟨hmain, by simp [Resolver.refreshTask, hmain]⟩

/-- Witness for `resolver_attempt3_telegram`: all sources empty on the
first two reads, the native channel delivering `"tg"` on the third, with
3 configured retries. -/
theorem resolver_attempt3_telegram_witness :
    Resolver.retryInitData
        (fun k => if k < 2 then ⟨"", none, none⟩ else ⟨"tg", none, none⟩) 3
      = (("tg", some .telegram), 3)
    ∧ Resolver.refreshTask
        (fun k => if k < 2 then ⟨"", none, none⟩ else ⟨"tg", none, none⟩) 3 0
        ⟨"", none, 0, true⟩
      = ⟨"tg", some .telegram, 0, false⟩ :=
  resolver_attempt3_telegram _ 3 0 ⟨"", none, 0, true⟩ "tg"
    (by decide) rfl rfl rfl (by decide)

/-- The retry loop of `retryInitData` exhausts its budget when every read
it performs finds all identity sources empty, ending with the empty value,
`null` source, and one read per iteration. -/
theorem retryLoop_allEmpty (host : Nat → Resolver.HostSnapshot) :
    ∀ (remaining attempt : Nat),
      (∀ k, attempt + 1 ≤ k → k ≤ attempt + remaining →
          Resolver.readInitData (host k) = ("", none)) →
      Resolver.retryLoop host attempt remaining
        = (("", none), attempt + remaining + 1) := by
  intro remaining
  induction remaining with
  | zero => intro attempt _; rfl
  | succ m ih =>
      intro attempt h
      have hEmp : ("" : String).isEmpty = true := rfl
      have hk : Resolver.readInitData (host (attempt + 1)) = ("", none) :=
        h (attempt + 1) (by omega) (by omega)
      have ihh := ih (attempt + 1) (fun k hk1 hk2 => h k (by omega) (by omega))
      rw [show attempt + (m + 1) + 1 = (attempt + 1) + m + 1 by omega,
        retryLoop_succ]
      simp [hk, hEmp, ihh]

/-- C8: when every identity source is empty at every one of the reads the
configured attempt count allows, `retryInitData` returns the empty value
with `null` provenance after exhausting all reads, and the refresh task
resolves normally — the embedding is a total function, mirroring that
neither branch of the task can raise — leaving the singleton empty with
provenance none. -/
theorem resolver_allEmpty_noneProvenance (host : Nat → Resolver.HostSnapshot)
    (retries now : Nat) (st : Resolver.ResolverState)
    (hAll : ∀ k, k ≤ retries → Resolver.readInitData (host k) = ("", none)) :
    Resolver.retryInitData host retries = (("", none), retries + 1)
    ∧ Resolver.refreshTask host retries now st = ⟨"", none, now, false⟩ := by
  have hEmp : ("" : String).isEmpty = true := rfl
  have h0 := hAll 0 (by omega)
  have hloop := retryLoop_allEmpty host retries 0
    (fun k _ hk2 => hAll k (by omega))
  constructor
  · simp [Resolver.retryInitData, h0, hEmp]
    simpa using hloop
  · simp [Resolver.refreshTask, Resolver.retryInitData, h0, hEmp, hloop]

/-- Witness for `resolver_allEmpty_noneProvenance`: a host with every
source empty forever and 2 configured retries. -/
theorem resolver_allEmpty_noneProvenance_witness :
    Resolver.retryInitData (fun _ => ⟨"", none, none⟩) 2 = (("", none), 2 + 1)
    ∧ Resolver.refreshTask (fun _ => ⟨"", none, none⟩) 2 5
        ⟨"x", some .telegram, 0, true⟩
      = ⟨"", none, 5, false⟩ :=
  resolver_allEmpty_noneProvenance _ 2 5 ⟨"x", some .telegram, 0, true⟩
    (fun _ _ => rfl)

/-- C9: a `refreshInitData()` call issued while another is in flight
returns the very task the first call started — both callers await the same
task, hence observe the same eventual outcome under any assignment of
outcomes to tasks — and exactly one retry loop is started for the whole
in-flight window. -/
theorem refresh_inflight_shared (s : Resolver.InflightState)
    (h : s.inflight = none) :
    (Resolver.refreshInvoke (Resolver.refreshInvoke s).2).1
      = (Resolver.refreshInvoke s).1
    ∧ (Resolver.refreshInvoke (Resolver.refreshInvoke s).2).2
      = (Resolver.refreshInvoke s).2
    ∧ (Resolver.refreshInvoke s).2.loopsStarted = s.loopsStarted + 1
    ∧ (Resolver.refreshInvoke (Resolver.refreshInvoke s).2).2.loopsStarted
      = s.loopsStarted + 1
    ∧ ∀ outcome : Nat → String × Option Resolver.InitDataSource,
        outcome (Resolver.refreshInvoke (Resolver.refreshInvoke s).2).1
          = outcome (Resolver.refreshInvoke s).1 := by
  simp [Resolver.refreshInvoke, h]

/-- Witness for `refresh_inflight_shared` at a concrete idle state. -/
theorem refresh_inflight_shared_witness :
    (Resolver.refreshInvoke (Resolver.refreshInvoke ⟨none, 0, 0⟩).2).1
      = (Resolver.refreshInvoke ⟨none, 0, 0⟩).1
    ∧ (Resolver.refreshInvoke (Resolver.refreshInvoke ⟨none, 0, 0⟩).2).2
      = (Resolver.refreshInvoke ⟨none, 0, 0⟩).2
    ∧ (Resolver.refreshInvoke (⟨none, 0, 0⟩ : Resolver.InflightState)).2.loopsStarted
      = 0 + 1
    ∧ (Resolver.refreshInvoke (Resolver.refreshInvoke ⟨none, 0, 0⟩).2).2.loopsStarted
      = 0 + 1
    ∧ ∀ outcome : Nat → String × Option Resolver.InitDataSource,
        outcome (Resolver.refreshInvoke (Resolver.refreshInvoke ⟨none, 0, 0⟩).2).1
          = outcome (Resolver.refreshInvoke ⟨none, 0, 0⟩).1 :=
  refresh_inflight_shared ⟨none, 0, 0⟩ rfl

/-- C10 counterexample: the empty string is a non-null token, but
`setAuthToken("")` (being falsy) removes the durable entry, and the
following `getAuthToken()` returns `null`, not `""` — refuting the claim
for `t = ""`. -/
theorem tokenStore_empty_cex :
    (Client.getAuthToken
        (Client.setAuthToken (some "") ⟨none, none, none, "", .pending⟩)).1 = none
    ∧ (Client.getAuthToken
        (Client.setAuthToken (some "") ⟨none, none, none, "", .pending⟩)).1
        ≠ some "" := by
  exact ⟨rfl, by decide⟩

/-- C10 amended: for every NON-EMPTY token string `t`, `setAuthToken t`
followed by `getAuthToken()` returns `t`, with cache and durable entry
both equal to `t`; `setAuthToken null` followed by `getAuthToken()`
returns `null`, with cache and durable entry both cleared.  (For `t = ""`
the setter removes the durable entry and the getter returns `null`.) -/
theorem tokenStore_roundtrip (st : Client.ClientState) (t : String)
    (h : t ≠ "") :
    (Client.getAuthToken (Client.setAuthToken (some t) st)).1 = some t
    ∧ (Client.setAuthToken (some t) st).authToken = some t
    ∧ (Client.setAuthToken (some t) st).storedToken = some t
    ∧ (Client.getAuthToken (Client.setAuthToken none st)).1 = none
    ∧ (Client.setAuthToken none st).authToken = none
    ∧ (Client.setAuthToken none st).storedToken = none := by
  have hne : t.isEmpty = false := by
    cases hq : t.isEmpty
    · rfl
    · exact absurd ((String.isEmpty_iff t).mp hq) h
  refine ⟨?_, ?_, ?_, ?_, ?_, ?_⟩ <;>
    simp [Client.getAuthToken, Client.setAuthToken, truthyStr, hne]

/-- Witness for `tokenStore_roundtrip` at `t = "tok"`. -/
theorem tokenStore_roundtrip_witness :
    (Client.getAuthToken
        (Client.setAuthToken (some "tok") ⟨none, none, none, "", .pending⟩)).1
      = some "tok"
    ∧ (Client.setAuthToken (some "tok")
        (⟨none, none, none, "", .pending⟩ : Client.ClientState)).authToken
      = some "tok"
    ∧ (Client.setAuthToken (some "tok")
        (⟨none, none, none, "", .pending⟩ : Client.ClientState)).storedToken
      = some "tok"
    ∧ (Client.getAuthToken
        (Client.setAuthToken none ⟨none, none, none, "", .pending⟩)).1 = none
    ∧ (Client.setAuthToken none
        (⟨none, none, none, "", .pending⟩ : Client.ClientState)).authToken = none
    ∧ (Client.setAuthToken none
        (⟨none, none, none, "", .pending⟩ : Client.ClientState)).storedToken
      = none :=
  tokenStore_roundtrip ⟨none, none, none, "", .pending⟩ "tok" (by decide)
